import Mathlib

/-!
Verification of the modal-operator repository against its specification.

This file shallowly embeds the Python source of the repository into Lean:
pure functions become Lean functions, raised exceptions become `Except`,
and Python values (JSON, dicts, env lists) become explicit inductive types.
Each embedded definition is named after the source symbol it models and is
kept executable so that concrete inputs can be evaluated inside proofs.
-/

namespace ModalOp

/-! ## Python string primitives

Helpers mirroring the exact Python string operations used by the source:
`str.endswith`, `str.rstrip` (which strips a *set* of characters),
`int(...)`, substring containment (`in`), and `repr` of a list of strings
(`str(list)`).
-/

/-- `'0' <= c <= '9'`, the characters accepted by `int()` digits. -/
def isDigitChar (c : Char) : Bool := 48 ≤ c.toNat && c.toNat ≤ 57

/-- Value of a digit run, most significant first. -/
def digitsVal (l : List Char) : Nat := l.foldl (fun a c => a * 10 + (c.toNat - 48)) 0

/-- Python `s.endswith(suf)`. -/
def pyEndsWith (s suf : String) : Bool :=
  decide (s.data.reverse.take suf.data.length = suf.data.reverse)

/-- Python `s.rstrip(chars)`: removes trailing characters that occur in `chars`. -/
def pyRstrip (s : String) (chars : List Char) : String :=
  String.mk ((s.data.reverse.dropWhile (fun c => chars.contains c)).reverse)

/-- Python `int(s)` restricted to the base-10 grammar: optional surrounding
spaces, an optional sign, then a non-empty digit run.  Returns `none` where
`int()` raises `ValueError`. -/
def pyInt (s : String) : Option Int :=
  let t := (((s.data.dropWhile (fun c => c == ' ')).reverse.dropWhile
      (fun c => c == ' ')).reverse)
  match t with
  | [] => none
  | c :: rest =>
    if c = '-' then
      if rest ≠ [] ∧ rest.all isDigitChar then some (-(digitsVal rest : Int)) else none
    else if c = '+' then
      if rest ≠ [] ∧ rest.all isDigitChar then some (digitsVal rest : Int) else none
    else if (c :: rest).all isDigitChar then some (digitsVal (c :: rest) : Int) else none

/-! ## Memory translation (`parse_memory`)

From `src/modal_operator/controllers/modal_job_controller.py` lines 13-21;
`src/modal_proxy/main.py` `_parse_memory` (lines 125-132) is the same code
verbatim, so one embedding covers both. -/

/-- Embeds `parse_memory`: suffix checks with `str.endswith`, digit parsing
with `int(str.rstrip(...))`; a parse failure raises `ValueError`. -/
def parse_memory (memory_str : String) : Except String Int :=
  if pyEndsWith memory_str "Gi" || pyEndsWith memory_str "G" then
    match pyInt (pyRstrip memory_str ['G', 'i']) with
    | some n => Except.ok (n * 1024)
    | none => Except.error "ValueError"
  else if pyEndsWith memory_str "Mi" || pyEndsWith memory_str "M" then
    match pyInt (pyRstrip memory_str ['M', 'i']) with
    | some n => Except.ok n
    | none => Except.error "ValueError"
  else
    match pyInt memory_str with
    | some n => Except.ok n
    | none => Except.error "ValueError"

/-! ### Supporting lemmas about the string primitives -/

theorem isDigitChar_ne {c d : Char} (h : isDigitChar c = true)
    (hd : isDigitChar d = false) : c ≠ d := by
  intro he
  rw [he] at h
  rw [h] at hd
  exact absurd hd (by simp)

theorem dropWhile_head_false {p : Char → Bool} {c : Char} (l : List Char)
    (h : p c = false) : (c :: l).dropWhile p = c :: l := by
  simp [List.dropWhile, h]

theorem contains_Gi_digit {c : Char} (h : isDigitChar c = true) :
    (['G', 'i'].contains c) = false := by
  have h1 : c ≠ 'G' := isDigitChar_ne h (by decide)
  have h2 : c ≠ 'i' := isDigitChar_ne h (by decide)
  simp [List.contains, h1, h2]

theorem contains_Mi_digit {c : Char} (h : isDigitChar c = true) :
    (['M', 'i'].contains c) = false := by
  have h1 : c ≠ 'M' := isDigitChar_ne h (by decide)
  have h2 : c ≠ 'i' := isDigitChar_ne h (by decide)
  simp [List.contains, h1, h2]

/-- `rstrip` over a digit string removes nothing. -/
theorem dropWhile_digits (chars : List Char) (l : List Char)
    (h : l.all isDigitChar = true)
    (hc : ∀ c, isDigitChar c = true → chars.contains c = false) :
    l.dropWhile (fun c => chars.contains c) = l := by
  cases l with
  | nil => rfl
  | cons c rest =>
    have hcd : isDigitChar c = true := by
      have := List.all_eq_true.mp h c (List.mem_cons_self c rest)
      exact this
    exact dropWhile_head_false rest (hc c hcd)

/-- `pyInt` succeeds on a non-empty digit string with its decimal value. -/
theorem pyInt_digits (l : List Char) (hne : l ≠ []) (h : l.all isDigitChar = true) :
    pyInt (String.mk l) = some (digitsVal l : Int) := by
  unfold pyInt
  have hspace : ∀ c, isDigitChar c = true → (c == ' ') = false := by
    intro c hc
    exact beq_eq_false_iff_ne.mpr (isDigitChar_ne hc (by decide))
  have hd1 : l.dropWhile (fun c => c == ' ') = l := by
    cases l with
    | nil => rfl
    | cons c rest =>
      have hcd := List.all_eq_true.mp h c (List.mem_cons_self c rest)
      exact dropWhile_head_false rest (hspace c hcd)
  have hall2 : l.reverse.all isDigitChar = true := by
    rw [List.all_reverse]; exact h
  have hd2 : l.reverse.dropWhile (fun c => c == ' ') = l.reverse := by
    cases hrev : l.reverse with
    | nil => rfl
    | cons c rest =>
      have hcd : isDigitChar c = true := by
        have := List.all_eq_true.mp hall2 c
        rw [hrev] at this
        exact this (List.mem_cons_self c rest)
      exact dropWhile_head_false rest (hspace c hcd)
  simp only [hd1, hd2, List.reverse_reverse]
  cases l with
  | nil => exact absurd rfl hne
  | cons c rest =>
    have hcd := List.all_eq_true.mp h c (List.mem_cons_self c rest)
    have hm : c ≠ '-' := isDigitChar_ne hcd (by decide)
    have hp : c ≠ '+' := isDigitChar_ne hcd (by decide)
    simp [hm, hp, h]

theorem dropWhile_append_all {p : Char → Bool} (a b : List Char)
    (h : a.all p = true) : (a ++ b).dropWhile p = b.dropWhile p := by
  induction a with
  | nil => rfl
  | cons c rest ih =>
    have hc := List.all_eq_true.mp h c (List.mem_cons_self c rest)
    have hrest : rest.all p = true := by
      apply List.all_eq_true.mpr
      intro x hx
      exact List.all_eq_true.mp h x (List.mem_cons_of_mem c hx)
    simp [List.dropWhile, hc, ih hrest]

theorem pyEndsWith_append (l suf : List Char) :
    pyEndsWith (String.mk (l ++ suf)) (String.mk suf) = true := by
  unfold pyEndsWith
  apply decide_eq_true
  show ((l ++ suf).reverse.take suf.length) = suf.reverse
  rw [List.reverse_append]
  rw [show suf.length = suf.reverse.length from (List.length_reverse suf).symm]
  exact List.take_left suf.reverse l.reverse

theorem pyEndsWith_digits_false (s : String) (h : s.data.all isDigitChar = true)
    (suf : String) (c : Char) (hc : c ∈ suf.data) (hcd : isDigitChar c = false) :
    pyEndsWith s suf = false := by
  unfold pyEndsWith
  apply decide_eq_false
  intro he
  have hmem : c ∈ suf.data.reverse := List.mem_reverse.mpr hc
  rw [← he] at hmem
  have hmem2 : c ∈ s.data.reverse := List.take_subset _ _ hmem
  have hmem3 : c ∈ s.data := List.mem_reverse.mp hmem2
  have := List.all_eq_true.mp h c hmem3
  rw [this] at hcd
  exact absurd hcd (by simp)

/-- Stripping a digit-only body plus an in-set suffix recovers the body. -/
theorem pyRstrip_append_digits (l suf chars : List Char)
    (h2 : l.all isDigitChar = true)
    (hsuf : suf.reverse.all (fun c => chars.contains c) = true)
    (hch : ∀ c, isDigitChar c = true → chars.contains c = false) :
    pyRstrip (String.mk (l ++ suf)) chars = String.mk l := by
  unfold pyRstrip
  show String.mk (((l ++ suf).reverse.dropWhile (fun c => chars.contains c)).reverse) = _
  rw [List.reverse_append]
  rw [dropWhile_append_all suf.reverse l.reverse hsuf]
  rw [dropWhile_digits chars l.reverse (by rw [List.all_reverse]; exact h2) hch]
  rw [List.reverse_reverse]

theorem parse_memory_Gi (l : List Char) (h1 : l ≠ []) (h2 : l.all isDigitChar = true) :
    parse_memory (String.mk (l ++ ['G', 'i'])) = Except.ok ((digitsVal l : Int) * 1024) := by
  unfold parse_memory
  have he : pyEndsWith (String.mk (l ++ ['G', 'i'])) "Gi" = true := pyEndsWith_append l ['G', 'i']
  rw [he]
  simp only [Bool.true_or, if_true]
  rw [pyRstrip_append_digits l ['G', 'i'] ['G', 'i'] h2 (by decide) (fun c hc => contains_Gi_digit hc)]
  rw [pyInt_digits l h1 h2]


theorem parse_memory_G (l : List Char) (h1 : l ≠ []) (h2 : l.all isDigitChar = true) :
    parse_memory (String.mk (l ++ ['G'])) = Except.ok ((digitsVal l : Int) * 1024) := by
  unfold parse_memory
  have hg : pyEndsWith (String.mk (l ++ ['G'])) "G" = true := pyEndsWith_append l ['G']
  rw [hg]
  simp only [Bool.or_true, if_true]
  rw [pyRstrip_append_digits l ['G'] ['G', 'i'] h2 (by decide) (fun c hc => contains_Gi_digit hc)]
  rw [pyInt_digits l h1 h2]

theorem parse_memory_Mi (l : List Char) (h1 : l ≠ []) (h2 : l.all isDigitChar = true) :
    parse_memory (String.mk (l ++ ['M', 'i'])) = Except.ok (digitsVal l : Int) := by
  unfold parse_memory
  have hgi : pyEndsWith (String.mk (l ++ ['M', 'i'])) "Gi" = false := by
    unfold pyEndsWith
    apply decide_eq_false
    intro he
    rw [List.reverse_append] at he
    simp [List.take] at he
  have hg : pyEndsWith (String.mk (l ++ ['M', 'i'])) "G" = false := by
    unfold pyEndsWith
    apply decide_eq_false
    intro he
    rw [List.reverse_append] at he
    simp [List.take] at he
  have hmi : pyEndsWith (String.mk (l ++ ['M', 'i'])) "Mi" = true := pyEndsWith_append l ['M', 'i']
  rw [hgi, hg, hmi]
  simp only [Bool.or_false, if_false, Bool.true_or, if_true]
  rw [pyRstrip_append_digits l ['M', 'i'] ['M', 'i'] h2 (by decide) (fun c hc => contains_Mi_digit hc)]
  rw [pyInt_digits l h1 h2]
  simp

theorem parse_memory_M (l : List Char) (h1 : l ≠ []) (h2 : l.all isDigitChar = true) :
    parse_memory (String.mk (l ++ ['M'])) = Except.ok (digitsVal l : Int) := by
  unfold parse_memory
  have hgi : pyEndsWith (String.mk (l ++ ['M'])) "Gi" = false := by
    unfold pyEndsWith
    apply decide_eq_false
    intro he
    rw [List.reverse_append] at he
    simp [List.take] at he
  have hg : pyEndsWith (String.mk (l ++ ['M'])) "G" = false := by
    unfold pyEndsWith
    apply decide_eq_false
    intro he
    rw [List.reverse_append] at he
    simp [List.take] at he
  have hm : pyEndsWith (String.mk (l ++ ['M'])) "M" = true := pyEndsWith_append l ['M']
  rw [hgi, hg, hm]
  simp only [Bool.or_false, if_false, Bool.or_true, if_true]
  rw [pyRstrip_append_digits l ['M'] ['M', 'i'] h2 (by decide) (fun c hc => contains_Mi_digit hc)]
  rw [pyInt_digits l h1 h2]
  simp

theorem parse_memory_bare (l : List Char) (h1 : l ≠ []) (h2 : l.all isDigitChar = true) :
    parse_memory (String.mk l) = Except.ok (digitsVal l : Int) := by
  unfold parse_memory
  have hgi := pyEndsWith_digits_false (String.mk l) h2 "Gi" 'i' (by decide) (by decide)
  have hg := pyEndsWith_digits_false (String.mk l) h2 "G" 'G' (by decide) (by decide)
  have hmi := pyEndsWith_digits_false (String.mk l) h2 "Mi" 'i' (by decide) (by decide)
  have hm := pyEndsWith_digits_false (String.mk l) h2 "M" 'M' (by decide) (by decide)
  rw [hgi, hg, hmi, hm]
  simp only [Bool.or_false, if_false]
  rw [pyInt_digits l h1 h2]
  simp
theorem string_append_data (s t : String) : s ++ t = String.mk (s.data ++ t.data) := by
  cases s
  cases t
  rfl

theorem string_mk_data (s : String) : String.mk s.data = s := by
  cases s
  rfl

/-- C7.  Memory translation: for every digit string `s`, `parse_memory` maps
`s ++ "Gi"` and `s ++ "G"` to `n * 1024` MiB, `s ++ "Mi"` and `s ++ "M"` to
`n` MiB, and the bare integer string to `n` MiB, where `n` is the decimal
value of `s`; the non-parsable string `"invalid"` yields a `ValueError`
rather than a value. -/
theorem parse_memory_translates_quantities (s : String) (h1 : s.data ≠ [])
    (h2 : s.data.all isDigitChar = true) :
    parse_memory (s ++ "Gi") = Except.ok ((digitsVal s.data : Int) * 1024) ∧
    parse_memory (s ++ "G") = Except.ok ((digitsVal s.data : Int) * 1024) ∧
    parse_memory (s ++ "Mi") = Except.ok (digitsVal s.data : Int) ∧
    parse_memory (s ++ "M") = Except.ok (digitsVal s.data : Int) ∧
    parse_memory s = Except.ok (digitsVal s.data : Int) ∧
    parse_memory "invalid" = Except.error "ValueError" := by
  refine ⟨?_, ?_, ?_, ?_, ?_, ?_⟩
  · rw [string_append_data]
    exact parse_memory_Gi s.data h1 h2
  · rw [string_append_data]
    exact parse_memory_G s.data h1 h2
  · rw [string_append_data]
    exact parse_memory_Mi s.data h1 h2
  · rw [string_append_data]
    exact parse_memory_M s.data h1 h2
  · rw [← string_mk_data s]
    exact parse_memory_bare s.data h1 h2
  · rfl

/-- Witness for C7 at the concrete inputs of the spec examples. -/
theorem parse_memory_translates_quantities_witness :
    parse_memory "2Gi" = Except.ok 2048 ∧ parse_memory "512" = Except.ok 512 := by
  have hg := (parse_memory_translates_quantities "2" (by decide) (by decide)).1
  have hb := (parse_memory_translates_quantities "512" (by decide) (by decide)).2.2.2.2.1
  constructor
  · simpa using hg
  · simpa using hb
/-! ## CPU translation

`create_job` (`src/modal_operator/controllers/modal_job_controller.py` lines
69-80) and `run` (`src/modal_proxy/main.py` lines 73-80) both convert the CR
cpu field with Python `float(cpu)` before the backend call.  The millicore
conversion asserted by the repository tests (`_extract_cpu` of the pod-mirror
module) is not under src/, so it is modelled from the spec below. -/

/-- Python `str.strip()` on space characters, list form. -/
def pyStripSpaces (l : List Char) : List Char :=
  ((l.dropWhile (fun c => c == ' ')).reverse.dropWhile (fun c => c == ' ')).reverse

/-- Absolute part of Python `float(s)`: digits, optionally a dot with digit
fraction.  Exponent and inf/nan forms are omitted (no call site uses them);
they would not accept an `m` suffix either. -/
def pyFloatAbs (t : List Char) : Option Rat :=
  let a := t.takeWhile isDigitChar
  let b := t.dropWhile isDigitChar
  match b with
  | [] => if a.isEmpty then none else some ((digitsVal a : Rat))
  | c :: rest =>
    if c = '.' then
      if rest.all isDigitChar && !(a.isEmpty && rest.isEmpty) then
        some ((digitsVal a : Rat) + (digitsVal rest : Rat) / ((10 : Rat) ^ rest.length))
      else none
    else none

/-- Python `float(s)` for the decimal grammar; `none` where `float()` raises
`ValueError`. -/
def pyFloat (s : String) : Option Rat :=
  match pyStripSpaces s.data with
  | [] => none
  | c :: rest =>
    if c = '-' then (pyFloatAbs rest).map (fun x => -x)
    else if c = '+' then pyFloatAbs rest
    else pyFloatAbs (c :: rest)

theorem takeWhile_append_all {p : Char → Bool} (a b : List Char)
    (h : a.all p = true) : (a ++ b).takeWhile p = a ++ b.takeWhile p := by
  induction a with
  | nil => rfl
  | cons c rest ih =>
    have hc := List.all_eq_true.mp h c (List.mem_cons_self c rest)
    have hrest : rest.all p = true := by
      apply List.all_eq_true.mpr
      intro x hx
      exact List.all_eq_true.mp h x (List.mem_cons_of_mem c hx)
    simp [List.takeWhile, hc, ih hrest]

/-- A digit string followed by `"m"` is rejected by `float()`. -/
theorem pyFloat_millicores_none (l : List Char) (h1 : l ≠ [])
    (h2 : l.all isDigitChar = true) : pyFloat (String.mk (l ++ ['m'])) = none := by
  unfold pyFloat pyStripSpaces
  have hspace : ∀ c, isDigitChar c = true → (c == ' ') = false := by
    intro c hc
    exact beq_eq_false_iff_ne.mpr (isDigitChar_ne hc (by decide))
  have hd1 : (l ++ ['m']).dropWhile (fun c => c == ' ') = l ++ ['m'] := by
    cases l with
    | nil => exact absurd rfl h1
    | cons c rest =>
      have hcd := List.all_eq_true.mp h2 c (List.mem_cons_self c rest)
      exact dropWhile_head_false _ (hspace c hcd)
  have hd2 : (l ++ ['m']).reverse.dropWhile (fun c => c == ' ') = (l ++ ['m']).reverse := by
    rw [List.reverse_append]
    exact dropWhile_head_false _ (by decide)
  simp only [hd1, hd2, List.reverse_reverse]
  cases l with
  | nil => exact absurd rfl h1
  | cons c rest =>
    have hcd := List.all_eq_true.mp h2 c (List.mem_cons_self c rest)
    have hm : c ≠ '-' := isDigitChar_ne hcd (by decide)
    have hp : c ≠ '+' := isDigitChar_ne hcd (by decide)
    simp only [List.cons_append, hm, if_false, hp]
    unfold pyFloatAbs
    have hdw : List.dropWhile isDigitChar (c :: (rest ++ ['m'])) = ['m'] := by
      have h3 := dropWhile_append_all (c :: rest) ['m'] h2
      simpa using h3
    simp [hdw]
/-- Decimal rendering of `m` millicores as Python `str(m / 1000)` produces it
for the relevant magnitudes (`250 -> "0.25"`, `1000 -> "1.0"`). -/
def formatMillicores (m : Nat) : String :=
  let q := m / 1000
  let r := m % 1000
  if r = 0 then toString q ++ ".0"
  else
    let d := (toString r).data
    let padded := List.replicate (3 - d.length) '0' ++ d
    toString q ++ "." ++ String.mk ((padded.reverse.dropWhile (fun c => c = '0')).reverse)

/-- Modelled from the spec: `_extract_cpu` of the pod-mirror module is code of
this repository that is not under src/ (only `src/tests/test_pod_mirror.py`
exercises it, and `webhook_controller.py` references `self.pod_mirror`).  Per
the spec, CPU parses a decimal string or an `m`-suffixed millicore string,
`"250m"` maps to `"0.25"`, and decimal strings are preserved verbatim. -/
def extract_cpu (cpu_str : String) : String :=
  if pyEndsWith cpu_str "m" then
    match pyInt (String.mk cpu_str.data.dropLast) with
    | some m => formatMillicores m.toNat
    | none => cpu_str
  else cpu_str

/-! ## Job creation routing (`create_job`, `create_modal_job`)

From `src/modal_operator/controllers/modal_job_controller.py` lines 31-163 and
`src/modal_operator/operator.py` lines 92-227.  The embedding keeps decision
structure and data flow; the remote backend call itself is opaque and is
represented by the routing outcome. -/

/-- Outcome of `create_job`: the mock branch, the distributed branch
(taken whenever `replicas > 1 or enable_i6pn`), or the single-function
branch.  Resource values recorded are those passed to the backend call. -/
inductive JobRoute
  | mock (appId functionId : String)
  | distributed (cpu : Rat) (memoryMb : Int) (replicas : Int) (i6pn : Bool)
  | single (cpu : Rat) (memoryMb : Int)
  deriving DecidableEq

/-- Embeds `ModalJobController.create_job`: mock short-circuit, then
`float(cpu)` and `parse_memory(memory)` (each raising `ValueError` on bad
input), then the `replicas > 1 or enable_i6pn` distributed routing.  Errors
are the exception kind observed by `create_modal_job`. -/
def create_job (mock : Bool) (name : String) (cpu memory : String)
    (replicas : Int) (enable_i6pn : Bool) : Except String JobRoute :=
  if mock then
    Except.ok (JobRoute.mock ("mock-app-" ++ name) ("mock-func-" ++ name))
  else
    match pyFloat cpu with
    | none => Except.error "ValueError"
    | some cpuVal =>
      match parse_memory memory with
      | Except.error _ => Except.error "ValueError"
      | Except.ok memVal =>
        if replicas > 1 || enable_i6pn then
          Except.ok (JobRoute.distributed cpuVal memVal replicas enable_i6pn)
        else
          Except.ok (JobRoute.single cpuVal memVal)

/-- `ModalJobSpec` (src/modal_operator/crds.py lines 8-33): a pydantic model
with typed fields and defaults and no cross-field validator relating
`replicas` to `enable_i6pn`. -/
structure ModalJobSpec where
  image : String
  command : List String := []
  args : List String := []
  cpu : String := "1.0"
  memory : String := "512Mi"
  gpu : Option String := none
  env : List (String × String) := []
  timeout : Int := 300
  retries : Int := 0
  tunnel_enabled : Bool := false
  tunnel_port : Int := 8000
  replicas : Int := 1
  enable_i6pn : Bool := false
  deriving DecidableEq

/-- Status condition written by `create_modal_job` on the ModalJob CR. -/
structure JobStatusPatch where
  phase : String
  ready : Bool
  reason : String
  deriving DecidableEq

/-- Embeds the status outcome of the `create_modal_job` handler
(operator.py lines 92-227): a successful `create_job` patches
`phase=Running, Ready=True, reason=JobCreated`; an exception patches
`phase=Failed, Ready=False, reason=CreationFailed_<kind>`. -/
def create_modal_job (mock : Bool) (name : String) (spec : ModalJobSpec) : JobStatusPatch :=
  match create_job mock name spec.cpu spec.memory spec.replicas spec.enable_i6pn with
  | Except.ok _ => { phase := "Running", ready := true, reason := "JobCreated" }
  | Except.error e => { phase := "Failed", ready := false, reason := "CreationFailed_" ++ e }

/-! ## Networking validation (`validate_networking_config`) -/

/-- `NetworkingConfig` (src/modal_operator/networking.py lines 11-15). -/
structure NetworkingConfig where
  enable_i6pn : Bool := false
  cluster_size : Option Int := none
  deriving DecidableEq

/-- Embeds `NetworkingController.validate_networking_config`
(networking.py lines 155-162), including the Python truthiness test on
`config.cluster_size`. -/
def validate_networking_config (config : NetworkingConfig) : List String :=
  match config.cluster_size with
  | none => []
  | some n =>
    if n ≠ 0 ∧ n > 1 ∧ config.enable_i6pn = false then
      ["Multi-replica jobs require i6pn networking to be enabled"]
    else []
/-- C8 counterexample: the claim as stated fails on the code.  For the CR cpu
field `"250m"`, the backend create call does not receive the equivalent
decimal value: `float("250m")` raises `ValueError` and `create_job` errors. -/
theorem pyFloat_250m_none : pyFloat "250m" = none := by decide

theorem pyFloat_one : pyFloat "1.0" = some 1 := by
  have h : pyFloat "1.0" =
      some ((digitsVal ['1'] : Rat) + (digitsVal ['0'] : Rat) / (10 : Rat) ^ (1 : Nat)) := rfl
  rw [h]
  have h1 : digitsVal ['1'] = 1 := by decide
  have h0 : digitsVal ['0'] = 0 := by decide
  rw [h1, h0]
  norm_num

theorem parse_memory_512Mi : parse_memory "512Mi" = Except.ok 512 := by
  have h := parse_memory_Mi ['5', '1', '2'] (by decide) (by decide)
  have hv : digitsVal ['5', '1', '2'] = 512 := by decide
  rw [hv] at h
  exact h

theorem cpu_millicores_create_job_errors :
    create_job false "job" "250m" "512Mi" 1 false = Except.error "ValueError" ∧
    create_modal_job false "job" { image := "img", cpu := "250m" } =
      { phase := "Failed", ready := false, reason := "CreationFailed_ValueError" } := by
  have hc : create_job false "job" "250m" "512Mi" 1 false = Except.error "ValueError" := by
    unfold create_job
    rw [pyFloat_250m_none]
    simp
  refine ⟨hc, ?_⟩
  unfold create_modal_job
  exact hc ▸ rfl

/-- C8 amended: CPU translation at pod-mirror extraction (modelled from the
spec; absent from src/) maps `"250m"` to `"0.25"` and preserves `"1.0"`, and
`float()` at the backend call accepts the decimal string `"1.0"`; but for
every CR whose cpu field is an `m`-suffixed millicore string the backend
create call fails with `ValueError` instead of receiving a converted value. -/
theorem cpu_translation_decimal_only (d : String) (h1 : d.data ≠ [])
    (h2 : d.data.all isDigitChar = true) :
    extract_cpu "250m" = "0.25" ∧
    extract_cpu "1.0" = "1.0" ∧
    pyFloat "1.0" = some 1 ∧
    pyFloat (d ++ "m") = none ∧
    (∀ (name memory : String) (replicas : Int) (i6pn : Bool),
      create_job false name (d ++ "m") memory replicas i6pn = Except.error "ValueError") := by
  have hnone : pyFloat (d ++ "m") = none := by
    rw [string_append_data]
    exact pyFloat_millicores_none d.data h1 h2
  refine ⟨by decide, by decide, pyFloat_one, hnone, ?_⟩
  intro name memory replicas i6pn
  unfold create_job
  rw [hnone]
  simp

/-- Witness for C8 at the concrete input `"250m"`. -/
theorem cpu_translation_decimal_only_witness :
    pyFloat ("250" ++ "m") = none ∧
    create_job false "job" ("250" ++ "m") "512Mi" 1 false = Except.error "ValueError" := by
  have h := cpu_translation_decimal_only "250" (by decide) (by decide)
  exact ⟨h.2.2.2.1, h.2.2.2.2 "job" "512Mi" 1 false⟩

/-- C9 counterexample: a ModalJob with `replicas = 3` and `enable_i6pn =
false` is neither rejected nor surfaced as a failure: `create_job` routes it
to the distributed branch and the CR status becomes `Running/Ready=True`. -/
theorem replicas_without_i6pn_processed :
    create_job false "job" "1.0" "512Mi" 3 false =
      Except.ok (JobRoute.distributed 1 512 3 false) ∧
    create_modal_job false "job" { image := "pytorch/pytorch:latest", replicas := 3 } =
      { phase := "Running", ready := true, reason := "JobCreated" } := by
  have hc : create_job false "job" "1.0" "512Mi" 3 false =
      Except.ok (JobRoute.distributed 1 512 3 false) := by
    unfold create_job
    rw [pyFloat_one, parse_memory_512Mi]
    simp
  refine ⟨hc, ?_⟩
  unfold create_modal_job
  exact hc ▸ rfl

/-- C9 amended: the `replicas>1 ⇒ enableClusterNetworking` rule is checked
only by `NetworkingController.validate_networking_config`, which is not
invoked on the CR path; `ModalJobSpec` has no cross-field validator, and a CR
with `replicas > 1` and `enable_i6pn = false` whose resources parse is
processed as a *distributed* job ending `Running/Ready=True/JobCreated`. -/
theorem replicas_i6pn_not_enforced (r : Int) (hr : 1 < r) (spec : ModalJobSpec)
    (name : String) (cv : Rat) (mv : Int)
    (h1 : spec.replicas = r) (h2 : spec.enable_i6pn = false)
    (hcpu : pyFloat spec.cpu = some cv) (hmem : parse_memory spec.memory = Except.ok mv) :
    validate_networking_config { enable_i6pn := false, cluster_size := some r } =
      ["Multi-replica jobs require i6pn networking to be enabled"] ∧
    create_job false name spec.cpu spec.memory spec.replicas spec.enable_i6pn =
      Except.ok (JobRoute.distributed cv mv r false) ∧
    create_modal_job false name spec =
      { phase := "Running", ready := true, reason := "JobCreated" } := by
  have hcreate : create_job false name spec.cpu spec.memory spec.replicas spec.enable_i6pn =
      Except.ok (JobRoute.distributed cv mv r false) := by
    unfold create_job
    rw [hcpu, hmem, h1, h2]
    simp [hr]
  refine ⟨?_, hcreate, ?_⟩
  · unfold validate_networking_config
    have hne : r ≠ 0 := by omega
    simp [hne, hr]
  · unfold create_modal_job
    rw [hcreate]

/-- Witness for C9 at `replicas = 3`. -/
theorem replicas_i6pn_not_enforced_witness :
    validate_networking_config { enable_i6pn := false, cluster_size := some 3 } =
      ["Multi-replica jobs require i6pn networking to be enabled"] ∧
    create_modal_job false "job" { image := "pytorch/pytorch:latest", replicas := 3 } =
      { phase := "Running", ready := true, reason := "JobCreated" } := by
  have h := replicas_i6pn_not_enforced 3 (by decide)
    { image := "pytorch/pytorch:latest", replicas := 3 } "job" 1 512 rfl rfl pyFloat_one
    parse_memory_512Mi
  exact ⟨h.1, h.2.2⟩
/-! ## Workload classification (`_detect_workload_type`)

From `src/docker/modal-placeholder/main.py` lines 30-48.  The joined
command/args string in the source is `str(command + args)`, the Python `repr`
of the list; substring membership is Python `in`. -/

/-- One escaped character of Python `repr` for a string under quote `q`
(backslash and quote escapes; the argv words in scope are printable ASCII). -/
def pyReprChar (q c : Char) : List Char :=
  if c = '\\' then ['\\', '\\'] else if c = q then ['\\', q] else [c]

/-- Python `repr` of one string: single quotes, or double quotes when the
string contains a single quote but no double quote. -/
def pyReprStr (s : String) : List Char :=
  let useDouble := s.data.contains '\'' && !(s.data.contains '"')
  let q := if useDouble then '"' else '\''
  q :: (s.data.foldr (fun c acc => pyReprChar q c ++ acc) [q])

/-- Python `str(xs)` for a list of strings. -/
def pyReprList (l : List String) : String :=
  String.mk ('[' :: (List.intercalate [',', ' '] (l.map pyReprStr) ++ [']']))

/-- Python `sub in s` substring containment. -/
def listContainsSub (s sub : List Char) : Bool :=
  match s with
  | [] => sub.isEmpty
  | _ :: rest => sub.isPrefixOf s || listContainsSub rest sub

/-- The service/server indicator tokens of rule 2. -/
def service_indicators : List String := ["serve", "server", "api", "8080", "5000"]

/-- The batch/job indicator tokens of rule 3. -/
def batch_indicators : List String := ["train", "batch", "process", "run"]

/-- Embeds `ModalPlaceholder._detect_workload_type`: ordered first-match
rules over `str(original_command + original_args)` and the image string. -/
def detect_workload_type (original_command original_args : List String)
    (original_image : String) : String :=
  let command_str := pyReprList (original_command ++ original_args)
  if service_indicators.any (fun t => listContainsSub command_str.data t.data) then
    "function"
  else if batch_indicators.any (fun t => listContainsSub command_str.data t.data) then
    "job"
  else if listContainsSub original_image.data "torchserve".data ||
      listContainsSub original_image.data "api".data then
    "function"
  else
    "job"

/-- C6.  Workload classification is a pure function applying the ordered
first-match rules: a service token in the joined command/args string gives
`function`; otherwise a batch token gives `job`; otherwise `torchserve` or
`api` in the image gives `function`; otherwise `job`.  In particular an input
containing both a service token and a batch token classifies as `function`. -/
theorem detect_workload_type_rules (cmd args : List String) (img : String)
    (joined : String) (hj : joined = pyReprList (cmd ++ args)) :
    ((∃ t ∈ service_indicators, listContainsSub joined.data t.data = true) →
      detect_workload_type cmd args img = "function") ∧
    ((∀ t ∈ service_indicators, listContainsSub joined.data t.data = false) →
      (∃ t ∈ batch_indicators, listContainsSub joined.data t.data = true) →
      detect_workload_type cmd args img = "job") ∧
    ((∀ t ∈ service_indicators, listContainsSub joined.data t.data = false) →
      (∀ t ∈ batch_indicators, listContainsSub joined.data t.data = false) →
      (listContainsSub img.data "torchserve".data = true ∨
        listContainsSub img.data "api".data = true) →
      detect_workload_type cmd args img = "function") ∧
    ((∀ t ∈ service_indicators, listContainsSub joined.data t.data = false) →
      (∀ t ∈ batch_indicators, listContainsSub joined.data t.data = false) →
      listContainsSub img.data "torchserve".data = false →
      listContainsSub img.data "api".data = false →
      detect_workload_type cmd args img = "job") ∧
    ((∃ t ∈ service_indicators, listContainsSub joined.data t.data = true) →
      (∃ t ∈ batch_indicators, listContainsSub joined.data t.data = true) →
      detect_workload_type cmd args img = "function") := by
  subst hj
  unfold detect_workload_type
  refine ⟨?_, ?_, ?_, ?_, ?_⟩
  · intro hs
    have ha : service_indicators.any
        (fun t => listContainsSub (pyReprList (cmd ++ args)).data t.data) = true := by
      rw [List.any_eq_true]
      obtain ⟨t, ht, hc⟩ := hs
      exact ⟨t, ht, hc⟩
    simp only [ha, if_true]
  · intro hns hb
    have hna : service_indicators.any
        (fun t => listContainsSub (pyReprList (cmd ++ args)).data t.data) = false := by
      rw [List.any_eq_false]
      intro t ht
      simp [hns t ht]
    have hba : batch_indicators.any
        (fun t => listContainsSub (pyReprList (cmd ++ args)).data t.data) = true := by
      rw [List.any_eq_true]
      obtain ⟨t, ht, hc⟩ := hb
      exact ⟨t, ht, hc⟩
    simp only [hna, hba, if_true, Bool.false_eq_true, if_false]
  · intro hns hnb himg
    have hna : service_indicators.any
        (fun t => listContainsSub (pyReprList (cmd ++ args)).data t.data) = false := by
      rw [List.any_eq_false]
      intro t ht
      simp [hns t ht]
    have hnba : batch_indicators.any
        (fun t => listContainsSub (pyReprList (cmd ++ args)).data t.data) = false := by
      rw [List.any_eq_false]
      intro t ht
      simp [hnb t ht]
    have him : (listContainsSub img.data "torchserve".data ||
        listContainsSub img.data "api".data) = true := by
      rcases himg with h | h <;> simp [h]
    simp only [hna, hnba, him, Bool.false_eq_true, if_false, if_true]
  · intro hns hnb h1 h2
    have hna : service_indicators.any
        (fun t => listContainsSub (pyReprList (cmd ++ args)).data t.data) = false := by
      rw [List.any_eq_false]
      intro t ht
      simp [hns t ht]
    have hnba : batch_indicators.any
        (fun t => listContainsSub (pyReprList (cmd ++ args)).data t.data) = false := by
      rw [List.any_eq_false]
      intro t ht
      simp [hnb t ht]
    simp only [hna, hnba, h1, h2, Bool.false_eq_true, if_false, Bool.or_self]
  · intro hs _
    have ha : service_indicators.any
        (fun t => listContainsSub (pyReprList (cmd ++ args)).data t.data) = true := by
      rw [List.any_eq_true]
      obtain ⟨t, ht, hc⟩ := hs
      exact ⟨t, ht, hc⟩
    simp only [ha, if_true]

/-- Witness for C6: `["python", "serve.py"]` with batch token `"run"` also
present still classifies as `function`; `["python", "train.py"]` classifies
as `job`. -/
theorem detect_workload_type_rules_witness :
    detect_workload_type ["python", "serve_and_run.py"] [] "pytorch/pytorch" = "function" ∧
    detect_workload_type ["python", "train.py"] [] "pytorch/pytorch" = "job" := by
  constructor
  · exact (detect_workload_type_rules ["python", "serve_and_run.py"] [] "pytorch/pytorch"
      _ rfl).2.2.2.2 ⟨"serve", by decide, by decide⟩ ⟨"run", by decide, by decide⟩
  · exact (detect_workload_type_rules ["python", "train.py"] [] "pytorch/pytorch"
      _ rfl).2.1 (by decide) ⟨"train", by decide, by decide⟩
/-! ## JSON values, `json.dumps` and `json.loads`

The capsule env vars carry `json.dumps` output (default separators
`", "` and `": "`, `ensure_ascii=True`) and the interception path reads them
back with `json.loads`.  The embedding covers the JSON fragment the capsule
uses: null, booleans, integers, strings, arrays, objects. -/

/-- Python-side JSON values. -/
inductive Json
  | null
  | bool (b : Bool)
  | num (n : Int)
  | str (s : String)
  | arr (l : List Json)
  | obj (l : List (String × Json))

/-- Opening brace character (written by code point to keep it out of string
literals). -/
def lbrace : Char := Char.ofNat 123

/-- Closing brace character. -/
def rbrace : Char := Char.ofNat 125

/-- Lowercase hex digit. -/
def hexDigit (n : Nat) : Char :=
  if n < 10 then Char.ofNat (48 + n) else Char.ofNat (87 + n)

/-- `\uXXXX` escape for a BMP code point (the capsule data in scope is
ASCII; astral-plane surrogate pairs are not generated by it). -/
def uEscape (n : Nat) : List Char :=
  ['\\', 'u', hexDigit (n / 4096 % 16), hexDigit (n / 256 % 16),
   hexDigit (n / 16 % 16), hexDigit (n % 16)]

/-- One character of `json.dumps` string output with `ensure_ascii=True`. -/
def jsonEscapeChar (c : Char) : List Char :=
  if c = '"' then ['\\', '"']
  else if c = '\\' then ['\\', '\\']
  else if c = '\n' then ['\\', 'n']
  else if c = '\t' then ['\\', 't']
  else if c = '\r' then ['\\', 'r']
  else if c.toNat = 8 then ['\\', 'b']
  else if c.toNat = 12 then ['\\', 'f']
  else if c.toNat < 32 || c.toNat > 126 then uEscape c.toNat
  else [c]

/-- `json.dumps` of a string. -/
def jsonDumpStr (s : String) : List Char :=
  '"' :: s.data.foldr (fun c acc => jsonEscapeChar c ++ acc) ['"']

mutual

/-- `json.dumps` with the default separators. -/
def jsonDump : Json → List Char
  | Json.null => ['n', 'u', 'l', 'l']
  | Json.bool b => if b then ['t', 'r', 'u', 'e'] else ['f', 'a', 'l', 's', 'e']
  | Json.num n => (toString n).data
  | Json.str s => jsonDumpStr s
  | Json.arr l => '[' :: (jsonDumpArr l ++ [']'])
  | Json.obj l => lbrace :: (jsonDumpObj l ++ [rbrace])

/-- Array elements joined with `", "`. -/
def jsonDumpArr : List Json → List Char
  | [] => []
  | [x] => jsonDump x
  | x :: y :: xs => jsonDump x ++ (',' :: ' ' :: jsonDumpArr (y :: xs))

/-- Object entries `"k": v` joined with `", "`. -/
def jsonDumpObj : List (String × Json) → List Char
  | [] => []
  | [(k, v)] => jsonDumpStr k ++ (':' :: ' ' :: jsonDump v)
  | (k, v) :: y :: xs =>
    jsonDumpStr k ++ (':' :: ' ' :: jsonDump v) ++ (',' :: ' ' :: jsonDumpObj (y :: xs))

end

/-- `json.dumps` as a string. -/
def jsonDumps (j : Json) : String := String.mk (jsonDump j)

/-- JSON whitespace skip. -/
def jsonSkipWs (l : List Char) : List Char :=
  l.dropWhile (fun c => c = ' ' || c = '\n' || c = '\t' || c = '\r')

/-- Body of a JSON string literal after the opening quote: returns the
decoded characters and the input after the closing quote. -/
def jsonParseStrBody : Nat → List Char → Option (List Char × List Char)
  | 0, _ => none
  | _ + 1, [] => none
  | fuel + 1, c :: rest =>
    if c = '"' then some ([], rest)
    else if c = '\\' then
      match rest with
      | [] => none
      | e :: rest2 =>
        if e = 'u' then
          match rest2 with
          | a :: b :: c2 :: d :: rest3 =>
            match (jsonParseStrBody fuel rest3) with
            | some (body, rem) =>
              let hv := fun (x : Char) =>
                if 48 ≤ x.toNat ∧ x.toNat ≤ 57 then x.toNat - 48
                else if 97 ≤ x.toNat ∧ x.toNat ≤ 102 then x.toNat - 87
                else if 65 ≤ x.toNat ∧ x.toNat ≤ 70 then x.toNat - 55
                else 0
              some (Char.ofNat (hv a * 4096 + hv b * 256 + hv c2 * 16 + hv d) :: body, rem)
            | none => none
          | _ => none
        else
          let decoded :=
            if e = 'n' then some '\n'
            else if e = 't' then some '\t'
            else if e = 'r' then some '\r'
            else if e = 'b' then some (Char.ofNat 8)
            else if e = 'f' then some (Char.ofNat 12)
            else if e = '"' ∨ e = '\\' ∨ e = '/' then some e
            else none
          match decoded with
          | none => none
          | some d =>
            match jsonParseStrBody fuel rest2 with
            | some (body, rem) => some (d :: body, rem)
            | none => none
    else
      match jsonParseStrBody fuel rest with
      | some (body, rem) => some (c :: body, rem)
      | none => none

mutual

/-- Recursive-descent `json.loads` value parser, fuel-bounded. -/
def jsonParseVal : Nat → List Char → Option (Json × List Char)
  | 0, _ => none
  | fuel + 1, input =>
    match jsonSkipWs input with
    | [] => none
    | c :: rest =>
      if c = 't' then
        match rest with
        | 'r' :: 'u' :: 'e' :: rem => some (Json.bool true, rem)
        | _ => none
      else if c = 'f' then
        match rest with
        | 'a' :: 'l' :: 's' :: 'e' :: rem => some (Json.bool false, rem)
        | _ => none
      else if c = 'n' then
        match rest with
        | 'u' :: 'l' :: 'l' :: rem => some (Json.null, rem)
        | _ => none
      else if c = '"' then
        match jsonParseStrBody (rest.length + 1) rest with
        | some (body, rem) => some (Json.str (String.mk body), rem)
        | none => none
      else if c = '[' then
        match jsonSkipWs rest with
        | ']' :: rem => some (Json.arr [], rem)
        | rest2 => match jsonParseArrItems fuel rest2 with
          | some (items, rem) => some (Json.arr items, rem)
          | none => none
      else if c = lbrace then
        match jsonSkipWs rest with
        | r :: rem => if r = rbrace then some (Json.obj [], rem)
            else match jsonParseObjItems fuel (r :: rem) with
              | some (items, rem2) => some (Json.obj items, rem2)
              | none => none
        | [] => none
      else if c = '-' ∨ isDigitChar c then
        let neg := c = '-'
        let digits := if neg then rest.takeWhile isDigitChar else c :: rest.takeWhile isDigitChar
        let rem := if neg then rest.dropWhile isDigitChar else rest.dropWhile isDigitChar
        if digits.isEmpty then none
        else some (Json.num (if neg then -(digitsVal digits : Int) else (digitsVal digits : Int)), rem)
      else none

/-- One-or-more array items separated by commas, then `]`. -/
def jsonParseArrItems : Nat → List Char → Option (List Json × List Char)
  | 0, _ => none
  | fuel + 1, input =>
    match jsonParseVal fuel input with
    | none => none
    | some (v, rest) =>
      match jsonSkipWs rest with
      | ',' :: rest2 =>
        match jsonParseArrItems fuel rest2 with
        | some (items, rem) => some (v :: items, rem)
        | none => none
      | ']' :: rem => some ([v], rem)
      | _ => none

/-- One-or-more object entries separated by commas, then the closing brace. -/
def jsonParseObjItems : Nat → List Char → Option (List (String × Json) × List Char)
  | 0, _ => none
  | fuel + 1, input =>
    match jsonSkipWs input with
    | '"' :: rest =>
      match jsonParseStrBody (rest.length + 1) rest with
      | none => none
      | some (key, rest2) =>
        match jsonSkipWs rest2 with
        | ':' :: rest3 =>
          match jsonParseVal fuel rest3 with
          | none => none
          | some (v, rest4) =>
            match jsonSkipWs rest4 with
            | ',' :: rest5 =>
              match jsonParseObjItems fuel rest5 with
              | some (items, rem) => some ((String.mk key, v) :: items, rem)
              | none => none
            | r :: rem => if r = rbrace then some ([(String.mk key, v)], rem) else none
            | [] => none
        | _ => none
    | _ => none

end

/-- `json.loads`: parse and require only whitespace to remain. -/
def jsonLoads (s : String) : Except String Json :=
  match jsonParseVal (s.data.length + 1) s.data with
  | some (v, rest) => if (jsonSkipWs rest).isEmpty then Except.ok v else Except.error "JSONDecodeError"
  | none => Except.error "JSONDecodeError"
/-! ## Admission mutation (`_generate_mutation_patches`, `mutate_pod`)

From `src/modal_operator/controllers/webhook_controller.py` lines 28-63 and
124-296, 319-367.  Python dicts from the admission payload are typed records;
absent keys are `Option`s; `raise ValueError` is `Except.error`. -/

/-- An env entry of an original container: `value` is `none` when the entry
uses `valueFrom` (the code reads `env.get("value")`). -/
structure EnvVar where
  name : String
  value : Option String
  deriving DecidableEq

/-- An original pod container as read from the admission request dict. -/
structure Container where
  name : Option String
  image : Option String
  command : List String := []
  args : List String := []
  env : List EnvVar := []
  deriving DecidableEq

/-- The pod dict fields the webhook touches. -/
structure PodDict where
  name : Option String := none
  labels : Option (List (String × String)) := none
  annotations : List (String × String) := []
  containers : List Container := []
  hostNetwork : Option Bool := none
  dnsPolicy : Option String := none
  subdomain : Option String := none
  hostname : Option String := none
  dnsConfig : Option Json := none

/-- Env entry of a mutated container in the patch value; `POD_NAMESPACE`
uses a fieldRef instead of a literal value. -/
structure MutEnvVar where
  name : String
  value : Option String
  valueFromFieldPath : Option String := none
  deriving DecidableEq

/-- Volume mount of a mutated container. -/
structure VolumeMount where
  name : String
  mountPath : String
  readOnly : Bool
  deriving DecidableEq

/-- Requests/limits of a mutated container. -/
structure Resources where
  requests : List (String × String) := []
  limits : List (String × String) := []
  deriving DecidableEq

/-- A container written by the `replace /spec/containers` patch. -/
structure MutContainer where
  name : String
  image : String
  imagePullPolicy : String
  command : List String
  env : List MutEnvVar
  ports : List (Nat × String × String)
  resources : Resources
  volumeMounts : List VolumeMount
  deriving DecidableEq

/-- Value of a JSON patch operation. -/
inductive PatchValue
  | containers (cs : List MutContainer)
  | str (s : String)
  | boolVal (b : Bool)
  | secretVolume (name secretName : String) (optional : Bool)
  | labels (m : List (String × String))
  deriving DecidableEq

/-- One JSON patch operation. -/
structure Patch where
  op : String
  path : String
  value : PatchValue
  deriving DecidableEq

/-- `None`-tolerant JSON value of an optional string (absent container
fields serialize as `null`). -/
def optStrJson : Option String → Json
  | none => Json.null
  | some s => Json.str s

/-- Python dict insert/update: updating an existing key keeps its position,
a new key appends. -/
def dictSet (m : List (String × Option String)) (k : String) (v : Option String) :
    List (String × Option String) :=
  if m.any (fun p => p.1 = k) then
    m.map (fun p => if p.1 = k then (k, v) else p)
  else m ++ [(k, v)]

/-- The merged `all_env` dict: every container's env entries in order,
last writer wins. -/
def mergedEnv (containers : List Container) : List (String × Option String) :=
  containers.foldl (fun m c => c.env.foldl (fun m2 e => dictSet m2 e.name e.value) m) []

/-- The original-networking annotation capsule. -/
def networkingConfigJson (pod : PodDict) : Json :=
  Json.obj [("hostNetwork", Json.bool (pod.hostNetwork.getD false)),
            ("dnsPolicy", Json.str (pod.dnsPolicy.getD "ClusterFirst")),
            ("subdomain", optStrJson pod.subdomain),
            ("hostname", optStrJson pod.hostname),
            ("dnsConfig", pod.dnsConfig.getD Json.null)]

/-- The logger-container env list of the mutation patch, in source order. -/
def loggerEnvList (pod_name : String) (containers : List Container) : List MutEnvVar :=
  [{ name := "POD_NAME", value := some pod_name },
   { name := "POD_NAMESPACE", value := none, valueFromFieldPath := some "metadata.namespace" },
   { name := "MODAL_EXECUTION", value := some "true" },
   { name := "ORIGINAL_IMAGES",
     value := some (jsonDumps (Json.arr (containers.map (fun c => optStrJson c.image)))) },
   { name := "ORIGINAL_NAMES",
     value := some (jsonDumps (Json.arr (containers.map (fun c => optStrJson c.name)))) },
   { name := "ORIGINAL_COMMANDS",
     value := some (jsonDumps (Json.arr (containers.map
       (fun c => Json.arr (c.command.map Json.str))))) },
   { name := "ORIGINAL_ARGS",
     value := some (jsonDumps (Json.arr (containers.map
       (fun c => Json.arr (c.args.map Json.str))))) },
   { name := "ORIGINAL_ENV",
     value := some (jsonDumps (Json.obj ((mergedEnv containers).map
       (fun p => (p.1, optStrJson p.2))))) },
   { name := "HTTP_PROXY", value := some "socks5://localhost:1080" },
   { name := "HTTPS_PROXY", value := some "socks5://localhost:1080" },
   { name := "MODAL_OPERATOR_PROXY", value := some "localhost:1080" }]

/-- The logger replacement container (first entry of the containers patch);
its name is `original_containers[0].get("name", "logger")`. -/
def logger_container (pod : PodDict) (operator_image : String) (c0 : Container) : MutContainer :=
  { name := c0.name.getD "logger"
    image := operator_image
    imagePullPolicy := "IfNotPresent"
    command := ["modal-logger"]
    env := loggerEnvList (pod.name.getD "unknown") pod.containers
    ports := [(8000, "placeholder", "TCP")]
    resources := {}
    volumeMounts := [{ name := "modal-secret", mountPath := "/etc/modal-secret", readOnly := true }] }

/-- The proxy sidecar replacement container (second entry). -/
def proxy_container (pod : PodDict) (operator_image : String) : MutContainer :=
  { name := "proxy"
    image := operator_image
    imagePullPolicy := "IfNotPresent"
    command := ["modal-proxy"]
    env := [{ name := "PROXY_PORT", value := some "1080" },
            { name := "POD_NAME", value := some (pod.name.getD "unknown") }]
    ports := [(1080, "proxy", "TCP")]
    resources := { requests := [("memory", "64Mi"), ("cpu", "50m")],
                   limits := [("memory", "128Mi"), ("cpu", "100m")] }
    volumeMounts := [{ name := "modal-secret", mountPath := "/etc/modal-secret", readOnly := true }] }

/-- The secret-volume patch (required, not optional). -/
def volume_patch : Patch :=
  { op := "add", path := "/spec/volumes/-",
    value := PatchValue.secretVolume "modal-secret" "modal-token" false }

/-- The `mutated="true"` annotation patch. -/
def mutated_annotation_patch : Patch :=
  { op := "add", path := "/metadata/annotations/modal-operator.io~1mutated",
    value := PatchValue.str "true" }

/-- The full ordered patch list produced on the success path. -/
def mutation_patches (pod : PodDict) (operator_image : String) (c0 : Container) : List Patch :=
  [{ op := "replace", path := "/spec/containers",
     value := PatchValue.containers [logger_container pod operator_image c0,
                                     proxy_container pod operator_image] },
   { op := "add", path := "/metadata/annotations/modal-operator.io~1original-networking",
     value := PatchValue.str (jsonDumps (networkingConfigJson pod)) }] ++
  (if pod.hostNetwork.getD false then
    [{ op := "replace", path := "/spec/hostNetwork", value := PatchValue.boolVal false }]
  else []) ++
  [{ op := if pod.dnsPolicy.isSome then "replace" else "add",
     path := "/spec/dnsPolicy", value := PatchValue.str "ClusterFirst" },
   volume_patch,
   mutated_annotation_patch,
   { op := "add", path := "/metadata/annotations/modal-operator.io~1tunnel-enabled",
     value := PatchValue.str "true" }] ++
  (match pod.labels with
   | none => [{ op := "add", path := "/metadata/labels",
                value := PatchValue.labels [("modal-operator.io/tunnel-pod", pod.name.getD "unknown")] }]
   | some [] => [{ op := "add", path := "/metadata/labels",
                   value := PatchValue.labels [("modal-operator.io/tunnel-pod", pod.name.getD "unknown")] }]
   | some _ => [{ op := "add", path := "/metadata/labels/modal-operator.io~1tunnel-pod",
                  value := PatchValue.str (pod.name.getD "unknown") }])

/-- Embeds `_generate_mutation_patches`: validation (zero containers, falsy
first-container name/image raise `ValueError`), then the ordered patches. -/
def generate_mutation_patches (pod : PodDict) (operator_image : String) :
    Except String (List Patch) :=
  match pod.containers with
  | [] => Except.error "Pod must have at least one container"
  | c0 :: _ =>
    if (c0.name.getD "") = "" then Except.error "Container must have a name"
    else if (c0.image.getD "") = "" then Except.error "Container must have an image"
    else Except.ok (mutation_patches pod operator_image c0)

/-- Admission response record; a denial carries neither patch nor patchType. -/
structure AdmissionResponse where
  uid : String
  allowed : Bool
  patchType : Option String
  patch : Option (List Patch)
  message : String

/-- Embeds `mutate_pod`: a successful generation answers allowed with a
JSONPatch; any exception answers `allowed=false` with the exception text and
no patch (`_deny_response`). -/
def mutate_pod (pod : PodDict) (operator_image uid : String) : AdmissionResponse :=
  match generate_mutation_patches pod operator_image with
  | Except.ok patches =>
    { uid := uid, allowed := true, patchType := some "JSONPatch",
      patch := some patches, message := "Mutated pod for Modal execution" }
  | Except.error e =>
    { uid := uid, allowed := false, patchType := none, patch := none,
      message := "Mutation failed: " ++ e }
/-- C10.  Admission validation: pods with zero containers, or whose first
container lacks a name or an image, are denied; any generation error yields
`allowed=false` with the exception text; and a denial response never carries
a patch (no malformed patch is possible). -/
theorem mutate_pod_validation (pod : PodDict) (img uid : String) :
    (pod.containers = [] → mutate_pod pod img uid =
      { uid := uid, allowed := false, patchType := none, patch := none,
        message := "Mutation failed: Pod must have at least one container" }) ∧
    (∀ c0 rest, pod.containers = c0 :: rest → (c0.name.getD "") = "" →
      mutate_pod pod img uid =
      { uid := uid, allowed := false, patchType := none, patch := none,
        message := "Mutation failed: Container must have a name" }) ∧
    (∀ c0 rest, pod.containers = c0 :: rest → (c0.name.getD "") ≠ "" →
      (c0.image.getD "") = "" →
      mutate_pod pod img uid =
      { uid := uid, allowed := false, patchType := none, patch := none,
        message := "Mutation failed: Container must have an image" }) ∧
    (∀ e, generate_mutation_patches pod img = Except.error e →
      mutate_pod pod img uid =
      { uid := uid, allowed := false, patchType := none, patch := none,
        message := "Mutation failed: " ++ e }) ∧
    ((mutate_pod pod img uid).allowed = false → (mutate_pod pod img uid).patch = none ∧
      (mutate_pod pod img uid).patchType = none) := by
  refine ⟨?_, ?_, ?_, ?_, ?_⟩
  · intro h
    simp [mutate_pod, generate_mutation_patches, h]
  · intro c0 rest h hname
    simp [mutate_pod, generate_mutation_patches, h, hname]
  · intro c0 rest h hname himg
    simp [mutate_pod, generate_mutation_patches, h, hname, himg]
  · intro e he
    simp [mutate_pod, he]
  · intro hdeny
    cases hgen : generate_mutation_patches pod img with
    | ok ps => simp [mutate_pod, hgen] at hdeny
    | error e => simp [mutate_pod, hgen]

/-- Witness for C10: the empty pod, a nameless container and an imageless
container are each denied with no patch. -/
theorem mutate_pod_validation_witness :
    mutate_pod { containers := [] } "img" "uid-1" =
      { uid := "uid-1", allowed := false, patchType := none, patch := none,
        message := "Mutation failed: Pod must have at least one container" } ∧
    mutate_pod { containers := [{ name := none, image := some "nginx" }] } "img" "uid-2" =
      { uid := "uid-2", allowed := false, patchType := none, patch := none,
        message := "Mutation failed: Container must have a name" } ∧
    mutate_pod { containers := [{ name := some "c", image := none }] } "img" "uid-3" =
      { uid := "uid-3", allowed := false, patchType := none, patch := none,
        message := "Mutation failed: Container must have an image" } := by
  refine ⟨?_, ?_, ?_⟩
  · exact (mutate_pod_validation { containers := [] } "img" "uid-1").1 rfl
  · exact (mutate_pod_validation _ "img" "uid-2").2.1 _ _ rfl (by decide)
  · exact (mutate_pod_validation _ "img" "uid-3").2.2.1 _ _ rfl (by decide) (by decide)

/-- The operator image default of `ModalWebhookController.__init__`. -/
def default_operator_image : String := "ghcr.io/solanyn/modal-operator:latest"

/-- The patch list of a successful mutation (empty on denial). -/
def patches_of (pod : PodDict) (img : String) : List Patch :=
  match generate_mutation_patches pod img with
  | Except.ok ps => ps
  | Except.error _ => []

/-- Env list of the first replacement container of the first patch. -/
def logger_env_of (pod : PodDict) (img : String) : List MutEnvVar :=
  match patches_of pod img with
  | p :: _ =>
    match p.value with
    | PatchValue.containers (c :: _) => c.env
    | _ => []
  | [] => []

/-- Lookup of a mutated-container env entry by name. -/
def mutEnvLookup (env : List MutEnvVar) (k : String) : Option (Option String) :=
  (env.find? (fun e => e.name = k)).map (fun e => e.value)

/-- Names of the containers of every `replace /spec/containers` patch. -/
def containers_patch_names (pod : PodDict) (img : String) : List (List String) :=
  (patches_of pod img).filterMap (fun p =>
    if p.path = "/spec/containers" then
      match p.value with
      | PatchValue.containers cs => some (cs.map (fun c => c.name))
      | _ => none
    else none)

/-- The single-container pod of spec scenario 4, with first container named
`main`. -/
def podMain : PodDict :=
  { name := some "test-pod",
    annotations := [("modal-operator.io/offload", "true")],
    containers := [{ name := some "main", image := some "python:3.11-slim",
                     command := ["python", "-c", "print(1)"] }] }

/-- C2 counterexample: for a pod whose first container is named `main`, the
only `replace /spec/containers` patch produces containers named
`(main, proxy)` — not `(logger, proxy)` as the claim states. -/
theorem containers_not_named_logger :
    containers_patch_names podMain default_operator_image = [["main", "proxy"]] ∧
    ["main", "proxy"] ≠ ["logger", "proxy"] := by
  exact ⟨rfl, by decide⟩

/-- C2 amended: for every admitted pod with a named, imaged first container,
the response is a JSONPatch whose first operation replaces `/spec/containers`
with exactly two containers — the first keeping the original first
container's name (default `logger` only if absent) and the second named
`proxy` — whose first container's env has `ORIGINAL_IMAGES` set to the
JSON-encoded list of all original images and `MODAL_EXECUTION=true`, and the
patch list adds the `modal-operator.io/mutated="true"` annotation. -/
theorem mutation_patch_shape (pod : PodDict) (img uid : String) (c0 : Container)
    (rest : List Container) (h1 : pod.containers = c0 :: rest)
    (hn : (c0.name.getD "") ≠ "") (hi : (c0.image.getD "") ≠ "") :
    generate_mutation_patches pod img = Except.ok (mutation_patches pod img c0) ∧
    (mutate_pod pod img uid).allowed = true ∧
    (mutate_pod pod img uid).patchType = some "JSONPatch" ∧
    (mutate_pod pod img uid).patch = some (mutation_patches pod img c0) ∧
    (mutation_patches pod img c0).head? = some
      { op := "replace", path := "/spec/containers",
        value := PatchValue.containers [logger_container pod img c0,
                                        proxy_container pod img] } ∧
    (logger_container pod img c0).name = c0.name.getD "logger" ∧
    (proxy_container pod img).name = "proxy" ∧
    mutEnvLookup (logger_container pod img c0).env "ORIGINAL_IMAGES" =
      some (some (jsonDumps (Json.arr (pod.containers.map (fun c => optStrJson c.image))))) ∧
    mutEnvLookup (logger_container pod img c0).env "MODAL_EXECUTION" = some (some "true") ∧
    mutated_annotation_patch ∈ mutation_patches pod img c0 := by
  have hgen : generate_mutation_patches pod img = Except.ok (mutation_patches pod img c0) := by
    simp [generate_mutation_patches, h1, hn, hi]
  refine ⟨hgen, ?_, ?_, ?_, rfl, rfl, rfl, rfl, rfl, ?_⟩
  · simp [mutate_pod, hgen]
  · simp [mutate_pod, hgen]
  · simp [mutate_pod, hgen]
  · simp [mutation_patches]
/-- Witness for C2 (amended) at the scenario-4 pod. -/
theorem mutation_patch_shape_witness :
    (mutate_pod podMain default_operator_image "test-uid-123").allowed = true ∧
    mutEnvLookup (logger_env_of podMain default_operator_image) "MODAL_EXECUTION" =
      some (some "true") := by
  have h := mutation_patch_shape podMain default_operator_image "test-uid-123"
    { name := some "main", image := some "python:3.11-slim",
      command := ["python", "-c", "print(1)"] } [] rfl (by decide) (by decide)
  exact ⟨h.2.1, by rfl⟩

/-- A pod whose original container env carries a token-like value. -/
def podToken : PodDict :=
  { name := some "p",
    containers := [{ name := some "main", image := some "img",
                     env := [{ name := "API_TOKEN", value := some "s3cret-token" }] }] }

/-- C3 counterexample: the token value from the original container's env is
written verbatim into the mutated pod's `ORIGINAL_ENV` env var, so credential
material from the workload does reach the stand-in pod's environment. -/
theorem token_value_written_into_pod_env :
    mutEnvLookup (logger_env_of podToken default_operator_image) "ORIGINAL_ENV" =
      some (some (jsonDumps (Json.obj [("API_TOKEN", Json.str "s3cret-token")]))) ∧
    listContainsSub (jsonDumps (Json.obj [("API_TOKEN", Json.str "s3cret-token")])).data
      "s3cret-token".data = true := by
  exact ⟨rfl, by decide⟩

/-- C3 amended: the operator's backend credentials are never placed in env by
the mutation — the only credential reference is the `modal-token` secret
volume mounted read-only at `/etc/modal-secret` in both replacement
containers — but the original containers' env values, token-like ones
included, are embedded verbatim in the JSON-encoded `ORIGINAL_ENV` env var. -/
theorem tokens_only_mounted_not_env (pod : PodDict) (img : String) (c0 : Container)
    (rest : List Container) (h1 : pod.containers = c0 :: rest)
    (hn : (c0.name.getD "") ≠ "") (hi : (c0.image.getD "") ≠ "") :
    generate_mutation_patches pod img = Except.ok (mutation_patches pod img c0) ∧
    (logger_container pod img c0).volumeMounts =
      [{ name := "modal-secret", mountPath := "/etc/modal-secret", readOnly := true }] ∧
    (proxy_container pod img).volumeMounts =
      [{ name := "modal-secret", mountPath := "/etc/modal-secret", readOnly := true }] ∧
    volume_patch ∈ mutation_patches pod img c0 ∧
    volume_patch.value = PatchValue.secretVolume "modal-secret" "modal-token" false ∧
    mutEnvLookup (logger_container pod img c0).env "ORIGINAL_ENV" =
      some (some (jsonDumps (Json.obj ((mergedEnv pod.containers).map
        (fun p => (p.1, optStrJson p.2)))))) := by
  have hgen : generate_mutation_patches pod img = Except.ok (mutation_patches pod img c0) := by
    simp [generate_mutation_patches, h1, hn, hi]
  refine ⟨hgen, rfl, rfl, ?_, rfl, rfl⟩
  simp [mutation_patches]

/-- Witness for C3 (amended) at the token-carrying pod. -/
theorem tokens_only_mounted_not_env_witness :
    (logger_container podToken default_operator_image
      { name := some "main", image := some "img",
        env := [{ name := "API_TOKEN", value := some "s3cret-token" }] }).volumeMounts =
      [{ name := "modal-secret", mountPath := "/etc/modal-secret", readOnly := true }] ∧
    volume_patch.value = PatchValue.secretVolume "modal-secret" "modal-token" false := by
  have h := tokens_only_mounted_not_env podToken default_operator_image
    { name := some "main", image := some "img",
      env := [{ name := "API_TOKEN", value := some "s3cret-token" }] } [] rfl
    (by decide) (by decide)
  exact ⟨h.2.1, h.2.2.2.2.1⟩
/-! ## Pod interception capsule decode (`mutated_pod_created`)

From `src/modal_operator/operator.py` lines 598-693.  The handler reads the
capsule back from the mutated pod's first-container env **by position**
(indices 2..6) with `json.loads`, then builds the CR spec dict. -/

/-- Python truthiness of a JSON value. -/
def pyTruthy : Json → Bool
  | Json.null => false
  | Json.bool b => b
  | Json.num n => n ≠ 0
  | Json.str s => s ≠ ""
  | Json.arr l => !l.isEmpty
  | Json.obj l => !l.isEmpty

/-- Python subscript `x[i]` on a decoded JSON value; non-sequences raise
`TypeError`, out-of-range raises `IndexError`. -/
def jsonSubscript (j : Json) (i : Nat) : Except String Json :=
  match j with
  | Json.arr l =>
    match l.get? i with
    | some v => Except.ok v
    | none => Except.error "IndexError"
  | Json.str s =>
    match s.data.get? i with
    | some c => Except.ok (Json.str (String.mk [c]))
    | none => Except.error "IndexError"
  | Json.bool _ => Except.error "TypeError: 'bool' object is not subscriptable"
  | Json.num _ => Except.error "TypeError: 'int' object is not subscriptable"
  | Json.null => Except.error "TypeError: 'NoneType' object is not subscriptable"
  | Json.obj _ => Except.error "KeyError"

/-- `annotations.get(key, default)`. -/
def annGet (anns : List (String × String)) (k d : String) : String :=
  match anns.find? (fun p => p.1 = k) with
  | some p => p.2
  | none => d

/-- `annotations.get(key)`. -/
def annGetOpt (anns : List (String × String)) (k : String) : Option String :=
  (anns.find? (fun p => p.1 = k)).map (fun p => p.2)

/-- `env[i].get("value", default)`, raising `IndexError` past the end. -/
def envValueAt (env : List MutEnvVar) (i : Nat) (d : String) : Except String String :=
  match env.get? i with
  | none => Except.error "IndexError"
  | some e => Except.ok (e.value.getD d)

/-- The CR spec dict assembled by `mutated_pod_created` (fields are decoded
JSON values where the source stores decoded objects). -/
structure CRSpec where
  image : Json
  env : Json
  cpu : String
  memory : String
  gpu : Option String
  handler : Option String
  timeout : Option Int
  command : Option Json
  args : Option Json

/-- `x and x[0]` used for command/args: evaluates the subscript only when the
container list is truthy, keeping the entry only when the element is truthy. -/
def truthyFirst (j : Json) : Except String (Option Json) :=
  if pyTruthy j then
    match jsonSubscript j 0 with
    | Except.ok v => Except.ok (if pyTruthy v then some v else none)
    | Except.error e => Except.error e
  else Except.ok none

/-- Embeds the capsule decode and spec assembly of `mutated_pod_created`
(operator.py lines 637-670): positional env reads at indices 2..6, then
`spec["image"] = original_images[0] if original_images else "python:3.11-slim"`,
env from the decoded capsule, resources from annotations, and the
workload-specific fields. -/
def mutated_pod_created_spec (env : List MutEnvVar)
    (annotations : List (String × String)) (workload_type : String) :
    Except String CRSpec := do
  let s2 ← envValueAt env 2 "[]"
  let s3 ← envValueAt env 3 "[]"
  let s4 ← envValueAt env 4 "[]"
  let s5 ← envValueAt env 5 "[]"
  let s6 ← envValueAt env 6 (String.mk [lbrace, rbrace])
  let original_images ← jsonLoads s2
  let _original_names ← jsonLoads s3
  let original_commands ← jsonLoads s4
  let original_args ← jsonLoads s5
  let original_env ← jsonLoads s6
  let image ← if pyTruthy original_images then jsonSubscript original_images 0
    else pure (Json.str "python:3.11-slim")
  let cpu := annGet annotations "modal-operator.io/cpu" "1.0"
  let memory := annGet annotations "modal-operator.io/memory" "1Gi"
  let gpu := annGetOpt annotations "modal-operator.io/gpu"
  let command ← truthyFirst original_commands
  let args ← truthyFirst original_args
  if workload_type = "function" then
    pure { image := image, env := original_env, cpu := cpu, memory := memory, gpu := gpu,
           handler := some "serve", timeout := none, command := command, args := args }
  else
    let timeoutStr := annGet annotations "modal-operator.io/timeout" "600"
    match pyInt timeoutStr with
    | some t => pure { image := image, env := original_env, cpu := cpu, memory := memory,
                       gpu := gpu, handler := none, timeout := some t,
                       command := command, args := args }
    | none => Except.error "ValueError"

/-- C1 (code bug): the capsule written by the mutation places
`MODAL_EXECUTION` at env index 2 and `ORIGINAL_IMAGES` at index 3, but the
interception path decodes index 2 as the images list.  For the scenario-4
pod the decode reads the JSON `true`, and building the CR spec raises
`TypeError` — no CR carrying the original image/command is ever produced,
so the round trip fails. -/
theorem capsule_positional_decode_fails :
    (logger_env_of podMain default_operator_image).map (fun e => e.name) =
      ["POD_NAME", "POD_NAMESPACE", "MODAL_EXECUTION", "ORIGINAL_IMAGES", "ORIGINAL_NAMES",
       "ORIGINAL_COMMANDS", "ORIGINAL_ARGS", "ORIGINAL_ENV", "HTTP_PROXY", "HTTPS_PROXY",
       "MODAL_OPERATOR_PROXY"] ∧
    (logger_env_of podMain default_operator_image).get? 2 =
      some { name := "MODAL_EXECUTION", value := some "true" } ∧
    (logger_env_of podMain default_operator_image).get? 3 =
      some { name := "ORIGINAL_IMAGES",
             value := some (jsonDumps (Json.arr [Json.str "python:3.11-slim"])) } ∧
    mutated_pod_created_spec (logger_env_of podMain default_operator_image)
      podMain.annotations "job" =
      Except.error "TypeError: 'bool' object is not subscriptable" := by
  exact ⟨rfl, rfl, rfl, rfl⟩
/-! ## Function gateway (`call_modal_function`)

From `src/tunnel/function_proxy.py` lines 33-76.  The upstream POST and the
in-cluster URL resolution are opaque effects, passed in as functions; the
handler itself builds the headers afresh from the operator credentials and
never reads the inbound request headers. -/

/-- The upstream request issued by the gateway. -/
structure UpstreamCall where
  url : String
  headers : List (String × String)
  payload : Json

/-- An HTTP response of the gateway. -/
structure GwResponse where
  status : Nat
  body : Json

/-- Embeds `call_modal_function`: `request.json()` (failure caught by the
handler's `except` as a 500), `get_function_url` resolution (`None` answers
404), the fixed credential headers, the upstream call, and the wrapped
success body; any upstream exception answers 500 with the error text. -/
def call_modal_function (token_id token_secret : String)
    (resolve : String → Option String)
    (upstream : UpstreamCall → Except String Json)
    (function_name : String)
    (_inbound_headers : List (String × String))
    (payload : Except String Json) : GwResponse × Option UpstreamCall :=
  match payload with
  | Except.error e => ({ status := 500, body := Json.obj [("error", Json.str e)] }, none)
  | Except.ok p =>
    match resolve function_name with
    | none =>
      ({ status := 404,
         body := Json.obj [("error", Json.str ("Function " ++ function_name ++ " not found"))] },
       none)
    | some url =>
      let headers := [("Authorization", "Bearer " ++ token_id ++ ":" ++ token_secret),
                      ("Content-Type", "application/json")]
      let call : UpstreamCall := { url := url, headers := headers, payload := p }
      match upstream call with
      | Except.ok result =>
        ({ status := 200,
           body := Json.obj [("status", Json.str "success"), ("result", result),
                             ("function", Json.str function_name)] },
         some call)
      | Except.error e =>
        ({ status := 500, body := Json.obj [("error", Json.str e)] }, some call)

/-- C4.  Gateway credential injection: every upstream request carries
`Authorization: Bearer <tokenId>:<tokenSecret>` and nothing derived from the
inbound headers (the handler's output is independent of them); the upstream
JSON response is wrapped as `status/success/function/result`; an upstream or
parsing failure answers 500 with an error body, and an unresolved function
name answers 404. -/
theorem gateway_credential_injection (tid tsec : String)
    (resolve : String → Option String) (upstream : UpstreamCall → Except String Json)
    (name : String) (inbound inbound2 : List (String × String))
    (payload : Except String Json) :
    (∀ call, (call_modal_function tid tsec resolve upstream name inbound payload).2 =
        some call →
      call.headers = [("Authorization", "Bearer " ++ tid ++ ":" ++ tsec),
                      ("Content-Type", "application/json")]) ∧
    call_modal_function tid tsec resolve upstream name inbound payload =
      call_modal_function tid tsec resolve upstream name inbound2 payload ∧
    (∀ p url r, payload = Except.ok p → resolve name = some url →
      upstream { url := url,
                 headers := [("Authorization", "Bearer " ++ tid ++ ":" ++ tsec),
                             ("Content-Type", "application/json")],
                 payload := p } = Except.ok r →
      (call_modal_function tid tsec resolve upstream name inbound payload).1 =
        { status := 200,
          body := Json.obj [("status", Json.str "success"), ("result", r),
                            ("function", Json.str name)] }) ∧
    (∀ p url e, payload = Except.ok p → resolve name = some url →
      upstream { url := url,
                 headers := [("Authorization", "Bearer " ++ tid ++ ":" ++ tsec),
                             ("Content-Type", "application/json")],
                 payload := p } = Except.error e →
      (call_modal_function tid tsec resolve upstream name inbound payload).1 =
        { status := 500, body := Json.obj [("error", Json.str e)] }) ∧
    (∀ p, payload = Except.ok p → resolve name = none →
      (call_modal_function tid tsec resolve upstream name inbound payload).1 =
        { status := 404,
          body := Json.obj [("error", Json.str ("Function " ++ name ++ " not found"))] }) := by
  refine ⟨?_, rfl, ?_, ?_, ?_⟩
  · intro call hcall
    unfold call_modal_function at hcall
    cases payload with
    | error e => simp at hcall
    | ok p =>
      cases hres : resolve name with
      | none => rw [hres] at hcall; simp at hcall
      | some url =>
        rw [hres] at hcall
        dsimp only at hcall
        cases hup : upstream ⟨url,
            [("Authorization", "Bearer " ++ tid ++ ":" ++ tsec),
             ("Content-Type", "application/json")], p⟩ with
        | ok r =>
          rw [hup] at hcall
          simp at hcall
          rw [← hcall]
        | error e =>
          rw [hup] at hcall
          simp at hcall
          rw [← hcall]
  · intro p url r hp hres hup
    subst hp
    unfold call_modal_function
    rw [hres]
    dsimp only
    rw [hup]
  · intro p url e hp hres hup
    subst hp
    unfold call_modal_function
    rw [hres]
    dsimp only
    rw [hup]
  · intro p hp hres
    subst hp
    unfold call_modal_function
    rw [hres]

/-- Witness for C4: the scenario-6 call with an inbound user token. -/
theorem gateway_credential_injection_witness :
    (call_modal_function "tok-id" "tok-sec"
        (fun _ => some "https://func-foo-default.modal.run")
        (fun _ => Except.ok (Json.obj [("y", Json.num 2)]))
        "foo" [("Authorization", "Bearer user-token")]
        (Except.ok (Json.obj [("x", Json.num 1)]))).1 =
      { status := 200,
        body := Json.obj [("status", Json.str "success"),
                          ("result", Json.obj [("y", Json.num 2)]),
                          ("function", Json.str "foo")] } := by
  exact (gateway_credential_injection "tok-id" "tok-sec"
    (fun _ => some "https://func-foo-default.modal.run")
    (fun _ => Except.ok (Json.obj [("y", Json.num 2)]))
    "foo" [("Authorization", "Bearer user-token")] []
    (Except.ok (Json.obj [("x", Json.num 1)]))).2.2.1
    (Json.obj [("x", Json.num 1)]) "https://func-foo-default.modal.run"
    (Json.obj [("y", Json.num 2)]) rfl rfl rfl
/-! ## SOCKS5 outbound proxy (`ModalOperatorProxy`)

From `src/modal_operator/proxy.py` lines 22-133.  The byte streams of one
connection are lists of byte values; writes are collected in order; the TCP
connect attempt outcome is a boolean parameter. -/

end ModalOp
